import Mathlib

/-!
Shallow embedding of `src/tools/impl/web_search/LocalSearch.js`
(class `LocalSearchServer`): a headless-browser-backed search scraper.

Pure string processing, the per-engine extraction pipeline, and the
stateful operations (`waitForPageSlot`, `releasePageSlot`,
`getOrCreateContext`, `#openUrlInSearchWindow`, `search`,
`formatContent`, `formatJSON`, `cleanup`) are embedded as Lean
functions over an explicit `ServerState`; external effects that can
fail (browser launch, context creation, page open, navigation, HTML
capture) are driven by a `FetchEnv` oracle recording which of them
succeed, and failures surface as `Except`.
-/

namespace LocalSearch

/-! ### String helpers: JS `trim()` and `replace(/\s+/g, ' ')` -/

/-- The whitespace characters relevant to the strings this code handles
(the ASCII core of the JS `\s` class). -/
def isWsChar (c : Char) : Bool :=
  c = ' ' || c = '\t' || c = '\n' || c = '\r' || c = '\x0b' || c = '\x0c'

/-- Drop leading and trailing whitespace from a character list. -/
def trimChars (l : List Char) : List Char :=
  ((l.dropWhile isWsChar).reverse.dropWhile isWsChar).reverse

/-- JS `String.prototype.trim()`. -/
def jsTrim (s : String) : String :=
  String.mk (trimChars s.data)

/-- Collapse every maximal run of whitespace into a single space.
The boolean flag records whether the previous character was whitespace. -/
def collapseWs : Bool → List Char → List Char
  | _, [] => []
  | prevWs, c :: rest =>
    if isWsChar c then
      if prevWs then collapseWs true rest
      else ' ' :: collapseWs true rest
    else c :: collapseWs false rest

/-- JS `s.trim().replace(/\s+/g, ' ')`, the normalization applied to every
piece of extracted content in `parseBingSearchResults`. -/
def normText (s : String) : String :=
  String.mk (collapseWs false (trimChars s.data))

/-- JS truthiness of `attr(..)` results: `undefined` and `''` are falsy. -/
def optTruthy : Option String → Bool
  | some s => !s.isEmpty
  | none => false

/-! ### Extraction pipeline: document model

Cheerio selector queries are not re-implemented; a document is modelled at
the level the parsers consume it: the list of result containers each
selector family would return, with the relevant sub-node structure.
-/

/-- One extracted search result: `{ url, title, content }`. -/
structure SearchResult where
  url : String
  title : String
  content : String
deriving DecidableEq, Repr

/-- An inline piece of a paragraph node: plain text, or the text content of
an embedded `span.news_dt` timestamp span. -/
inductive ParaPiece
  | text (s : String)
  | dateSpan (s : String)
deriving DecidableEq, Repr

/-- A paragraph node (`p.b_lineclamp3` or `.b_caption p`) as a sequence of
inline pieces. `.text()` concatenates all of them; removing the
`span.news_dt` clone first drops the `dateSpan` contributions. -/
structure Para where
  pieces : List ParaPiece
deriving DecidableEq, Repr

/-- Text content (`.text()`) of the whole paragraph. -/
def Para.fullText (p : Para) : String :=
  String.join (p.pieces.map (fun pc => match pc with
    | .text s => s
    | .dateSpan s => s))

/-- Text content (`.text()`) after the `span.news_dt` children are removed from the clone. -/
def Para.textSansDate (p : Para) : String :=
  String.join (p.pieces.map (fun pc => match pc with
    | .text s => s
    | .dateSpan _ => ""))

/-- One `span` under `.b_dList .lisn_olitem`: its optional `title`
attribute and its visible text content. -/
structure SpanItem where
  titleAttr : Option String
  visible : String
deriving DecidableEq, Repr

/-- Models `$item.attr('title') || $item.text().trim()`: the `title` attribute is
preferred, falling back to the trimmed visible text when the attribute is
absent or empty (JS `||` on a falsy left operand). -/
def SpanItem.chosenText (it : SpanItem) : String :=
  match it.titleAttr with
  | some t => if t.isEmpty then jsTrim it.visible else t
  | none => jsTrim it.visible

/-- One Bing result container (`li.b_algo`): the `h2 a` anchor text and
`href`, the optional `p.b_lineclamp3` node, the optional `.b_caption p`
node, and the `.b_dList .lisn_olitem span` list. `none` / `[]` model a
selector that matches nothing. -/
structure BingItem where
  titleText : String
  href : Option String
  lineclamp : Option Para
  caption : Option Para
  dListSpans : List SpanItem
deriving DecidableEq, Repr

/-- Tier (c): texts of the list items (only truthy ones are pushed),
joined with single spaces, then `.trim().replace(/\s+/g, ' ')`. -/
def dListContent (spans : List SpanItem) : String :=
  if spans.isEmpty then ""
  else
    let contents := spans.filterMap (fun it =>
      let t := it.chosenText
      if t.isEmpty then none else some t)
    normText (String.intercalate " " contents)

/-- The content field of a Bing container: `p.b_lineclamp3` is used
whenever that selector matches (timestamp span stripped); otherwise
`.b_caption p` whenever that matches (same stripping); otherwise the
`.b_dList` item spans; otherwise the empty string. -/
def bingContent (it : BingItem) : String :=
  match it.lineclamp with
  | some p => normText p.textSansDate
  | none =>
    match it.caption with
    | some p => normText p.textSansDate
    | none => dListContent it.dListSpans

/-- Models `if (title && url) results.push(...)` with `content: content || ''`
for one Bing container. -/
def bingCandidate (it : BingItem) : Option SearchResult :=
  let title := jsTrim it.titleText
  match it.href with
  | some u =>
    if !title.isEmpty && !u.isEmpty then
      some { url := u, title := title, content := bingContent it }
    else none
  | none => none

/-- Models `parseBingSearchResults`: each `li.b_algo` container contributes at
most one result, in document order. -/
def parseBingSearchResults (items : List BingItem) : List SearchResult :=
  items.filterMap bingCandidate

/-- An inline piece of the Baidu title anchor: plain text or an embedded
`em` highlight element (removed from the clone before `.text()`). -/
inductive TitlePiece
  | text (s : String)
  | em (s : String)
deriving DecidableEq, Repr

/-- One Baidu result container (`div.result.c-container`): the `h3.t a`
anchor (absent when the selector matches nothing), its `href`, and the
text of `span.content-right_2s-H4` (absent when that selector matches
nothing). -/
structure BaiduItem where
  titleAnchor : Option (List TitlePiece)
  href : Option String
  contentSpan : Option String
deriving DecidableEq, Repr

/-- Title of a Baidu container: clone, `.find('em').remove()`, `.text()`,
`.trim()`; an absent anchor yields the empty string. -/
def baiduTitle : Option (List TitlePiece) → String
  | none => ""
  | some ps =>
    jsTrim (String.join (ps.map (fun pc => match pc with
      | .text s => s
      | .em _ => "")))

/-- Content of a Baidu container: `.text().trim()` of the content span; an
absent span yields the empty string. -/
def baiduContent (it : BaiduItem) : String :=
  match it.contentSpan with
  | some s => jsTrim s
  | none => ""

/-- Models `if (title && url && content) results.push(...)` for one Baidu
container: stricter than Bing, content must also be non-empty. -/
def baiduCandidate (it : BaiduItem) : Option SearchResult :=
  let title := baiduTitle it.titleAnchor
  let content := baiduContent it
  match it.href with
  | some u =>
    if !title.isEmpty && !u.isEmpty && !content.isEmpty then
      some { url := u, title := title, content := content }
    else none
  | none => none

/-- Models `parseBaiduSearchResults`: each `div.result.c-container` contributes
at most one result, in document order. -/
def parseBaiduSearchResults (items : List BaiduItem) : List SearchResult :=
  items.filterMap baiduCandidate

/-! ### Query URLs -/

/-- Characters left unescaped by JS `encodeURIComponent`. -/
def uriUnreserved (c : Char) : Bool :=
  c.isAlphanum || c = '-' || c = '_' || c = '.' || c = '!' ||
    c = '~' || c = '*' || c = Char.ofNat 39 || c = '(' || c = ')'

/-- Upper-case hexadecimal digit for a value below 16. -/
def hexDigit (n : Nat) : Char :=
  if n < 10 then Char.ofNat (48 + n) else Char.ofNat (55 + (n - 10))

/-- Percent escape (`%XX`) of one UTF-8 byte. -/
def percentByte (b : UInt8) : String :=
  String.mk ['%', hexDigit (b.toNat / 16), hexDigit (b.toNat % 16)]

/-- JS `encodeURIComponent`: unreserved characters pass through, every
other character is replaced by the `%XX` escapes of its UTF-8 bytes. -/
def encodeURIComponent (s : String) : String :=
  String.join (s.data.map (fun c =>
    if uriUnreserved c then String.mk [c]
    else String.join (((String.mk [c]).toUTF8.toList).map percentByte)))

/-- The engine actually selected by `search`. -/
inductive Engine
  | bing
  | baidu
deriving DecidableEq, Repr

/-- Lower-case one character (the ASCII action of JS `toLowerCase`,
which is all that matters for comparison against "baidu"). -/
def lowerChar (c : Char) : Char :=
  if 'A' ≤ c && c ≤ 'Z' then Char.ofNat (c.toNat + 32) else c

/-- JS `String.prototype.toLowerCase()`. -/
def jsToLowerCase (s : String) : String :=
  String.mk (s.data.map lowerChar)

/-- Engine dispatch: `requestOptions.engine.toLowerCase() === 'baidu'` selects Baidu;
every other value falls through to the Bing branch. -/
def selectEngine (engine : String) : Engine :=
  if jsToLowerCase engine = "baidu" then .baidu else .bing

/-- The search URL built for the selected engine. -/
def requestUrl (e : Engine) (query : String) : String :=
  match e with
  | .bing => "https://www.bing.com/search?q=" ++ encodeURIComponent query
  | .baidu => "https://www.baidu.com/s?wd=" ++ encodeURIComponent query

/-! ### Server state and effect oracle -/

/-- A fetched document, as the two parsers consume it: what the Bing
selectors and the Baidu selectors would each return on its HTML. -/
structure Doc where
  bingItems : List BingItem
  baiduItems : List BaiduItem
deriving DecidableEq, Repr

/-- The stored `this.result`: `{ query, results }`. -/
structure SearchResponse where
  query : String
  results : List SearchResult
deriving DecidableEq, Repr

/-- The mutable fields of a `LocalSearchServer` instance. `browser` is
`none` when the handle is `null`; `contexts` is the uid-keyed `Map` as an
association list; `nextCtxId` numbers the contexts `browser.newContext()`
hands out, so distinct creations yield distinct ids. -/
structure ServerState where
  browser : Option Unit
  contexts : List (String × Nat)
  nextCtxId : Nat
  activePages : Nat
  result : Option SearchResponse
deriving DecidableEq, Repr

/-- The field initializers of the class: `browser = null`,
`contexts = new Map()`, `activePages = 0`, `result = null`. -/
def initialState : ServerState :=
  { browser := none, contexts := [], nextCtxId := 0,
    activePages := 0, result := none }

/-- The field initializer `maxConcurrentPages = 10`. -/
def maxConcurrentPages : Nat := 10

/-- Models `this.contexts.get(uid)`. -/
def mapGet (l : List (String × Nat)) (k : String) : Option Nat :=
  match l with
  | [] => none
  | (k2, v) :: rest => if k = k2 then some v else mapGet rest k

/-- Outcomes of the external browser effects a single fetch performs:
whether `chromium.launch`, `browser.newContext`, `context.newPage`,
`page.goto` and `page.content` succeed, and the document captured on
success. -/
structure FetchEnv where
  launchOk : Bool
  newContextOk : Bool
  newPageOk : Bool
  gotoOk : Bool
  contentOk : Bool
  doc : Doc
deriving DecidableEq, Repr

/-- The errors a search call can propagate. -/
inductive SearchError
  | resourceError
  | navigationError
deriving DecidableEq, Repr

/-! ### Stateful operations -/

/-- Models `initializeBrowser`: launch the shared browser if `this.browser` is
`null`, otherwise reuse it; a launch failure propagates. -/
def initializeBrowser (launchOk : Bool) (s : ServerState) :
    Except SearchError ServerState :=
  match s.browser with
  | some _ => .ok s
  | none =>
    if launchOk then .ok { s with browser := some () }
    else .error .resourceError

/-- Models `getOrCreateContext(uid)`: return the registered context for `uid`,
or initialize the browser, create a fresh context, register it and
return it. Failures of launch or context creation propagate. -/
def getOrCreateContext (env : FetchEnv) (uid : String) (s : ServerState) :
    Except SearchError (Nat × ServerState) :=
  match mapGet s.contexts uid with
  | some ctx => .ok (ctx, s)
  | none =>
    match initializeBrowser env.launchOk s with
    | .error e => .error e
    | .ok s1 =>
      if env.newContextOk then
        .ok (s1.nextCtxId,
          { s1 with contexts := (uid, s1.nextCtxId) :: s1.contexts,
                    nextCtxId := s1.nextCtxId + 1 })
      else .error .resourceError

/-- Models `waitForPageSlot`: after the wait loop exits, `this.activePages++`.
As a sequential function this records the increment a returning call
performs; the admission guard itself is captured by `SlotStep`. -/
def waitForPageSlot (s : ServerState) : ServerState :=
  { s with activePages := s.activePages + 1 }

/-- Models `releasePageSlot`: `this.activePages--` (every release in the code
follows a matching acquire, so the count is positive here). -/
def releasePageSlot (s : ServerState) : ServerState :=
  { s with activePages := s.activePages - 1 }

/-- Models `#openUrlInSearchWindow(uid, url)`: acquire a slot, get or create the
uid's context (both before the `try`), then inside `try` open a page,
navigate, wait, capture HTML; the `finally` closes the page (when one was
created) and releases the slot. A failure of `getOrCreateContext` occurs
before the `try`, so no `finally` runs on that path. -/
def openUrlInSearchWindow (env : FetchEnv) (uid : String) (_url : String)
    (s : ServerState) : Except SearchError Doc × ServerState :=
  let s1 := waitForPageSlot s
  match getOrCreateContext env uid s1 with
  | .error e => (.error e, s1)
  | .ok (_ctx, s2) =>
    if !env.newPageOk then (.error .navigationError, releasePageSlot s2)
    else if !env.gotoOk then (.error .navigationError, releasePageSlot s2)
    else if !env.contentOk then (.error .navigationError, releasePageSlot s2)
    else (.ok env.doc, releasePageSlot s2)

/-- The caller-facing options of `search`, with the `defaultOptions`
merge already applied: `uid: 'default'`, `max_results: 5`,
`engine: 'bing'`. -/
structure SearchOptions where
  uid : String := "default"
  max_results : Nat := 5
  engine : String := "bing"
deriving DecidableEq, Repr

/-- Models `search(query, options)`: pick the engine from `options.engine`,
build the URL, fetch the document, parse with the engine's parser,
truncate with `slice(0, max_results)`, store `this.result` and return
it; any error from the fetch is re-thrown and `this.result` is not
touched. -/
def search (env : FetchEnv) (query : String) (opts : SearchOptions)
    (s : ServerState) : Except SearchError SearchResponse × ServerState :=
  let eng := selectEngine opts.engine
  let url := requestUrl eng query
  match openUrlInSearchWindow env opts.uid url s with
  | (.error e, s1) => (.error e, s1)
  | (.ok doc, s1) =>
    let results :=
      match eng with
      | .baidu => parseBaiduSearchResults doc.baiduItems
      | .bing => parseBingSearchResults doc.bingItems
    let resp : SearchResponse :=
      { query := query, results := results.take opts.max_results }
    (.ok resp, { s1 with result := some resp })

/-- The record rendered for one result in `formatContent`. -/
def formatItem (r : SearchResult) : String :=
  "URL: " ++ r.url ++ "\nTitle: " ++ r.title ++ "\ncontent: " ++
    r.content ++ "\n"

/-- Models `formatContent()`: empty string when no response is stored, otherwise
the query line followed by the records joined by the fixed delimiter. -/
def formatContent (s : ServerState) : String :=
  match s.result with
  | none => ""
  | some r =>
    "Query: " ++ r.query ++ "\n" ++
      String.intercalate "======\n======" (r.results.map formatItem)

/-- Models `formatJSON()`: empty list when no response is stored, otherwise the
stored result list. -/
def formatJSON (s : ServerState) : List SearchResult :=
  match s.result with
  | none => []
  | some r => r.results

/-- Models `context.close()` as observed through the registered `close`
handler: the context's entry is removed from the registry. -/
def closeContext (uid : String) (s : ServerState) : ServerState :=
  { s with contexts := s.contexts.filter (fun p => p.1 ≠ uid) }

/-- Models `browser.close()` as observed through the `disconnected` handler
(`browser = null`, `contexts.clear()`); a `null` browser is skipped. -/
def closeBrowser (s : ServerState) : ServerState :=
  match s.browser with
  | none => s
  | some _ => { s with browser := none, contexts := [] }

/-- Models `cleanup()`: close every registered context, close the browser and
null it out, clear the registry, zero the slot counter, drop the stored
result. When the registry is empty and the browser is `null` (first use,
or a second consecutive call) no external call is made at all. -/
def cleanup (s : ServerState) : ServerState :=
  let s1 := s.contexts.foldl (fun st p => closeContext p.1 st) s
  let s2 := closeBrowser s1
  let s3 := { s2 with browser := none }
  { s3 with contexts := [], activePages := 0, result := none }

/-! ### Cooperative slot-step model

Under the single-threaded cooperative scheduler, the re-check of
`activePages >= maxConcurrentPages` and the following `activePages++` in
`waitForPageSlot` run in one synchronous segment with no `await`
between them, so each interleaved call observes either a completed
acquire (guarded by the ceiling) or a completed release. -/

/-- One scheduler-visible step of the slot counter: a guarded acquire
(`waitForPageSlot` past its wait loop), a release, or any step of other
code, which leaves `activePages` unchanged. -/
inductive SlotStep : ServerState → ServerState → Prop
  | acquire (s : ServerState) :
      s.activePages < maxConcurrentPages → SlotStep s (waitForPageSlot s)
  | release (s : ServerState) : SlotStep s (releasePageSlot s)
  | other (s t : ServerState) :
      t.activePages = s.activePages → SlotStep s t

/-- States reachable from the freshly constructed server by slot steps. -/
inductive SlotReachable : ServerState → Prop
  | init : SlotReachable initialState
  | step {s t : ServerState} :
      SlotReachable s → SlotStep s t → SlotReachable t

/-! ### Helper lemmas -/

/-- A successful `initializeBrowser` changes at most the browser field. -/
theorem initializeBrowser_ok {ok : Bool} {s s1 : ServerState}
    (h : initializeBrowser ok s = .ok s1) :
    s1.contexts = s.contexts ∧ s1.nextCtxId = s.nextCtxId ∧
      s1.activePages = s.activePages ∧ s1.result = s.result := by
  unfold initializeBrowser at h
  split at h
  · simp only [Except.ok.injEq] at h
    subst h
    exact ⟨rfl, rfl, rfl, rfl⟩
  · split at h
    · simp only [Except.ok.injEq] at h
      subst h
      exact ⟨rfl, rfl, rfl, rfl⟩
    · simp at h

/-- A successful `getOrCreateContext` either found the uid's context and
left the state untouched, or registered a fresh context under the next
id, touching only the registry and the id counter. -/
theorem getOrCreateContext_ok {env : FetchEnv} {uid : String}
    {s : ServerState} {c : Nat} {s2 : ServerState}
    (h : getOrCreateContext env uid s = .ok (c, s2)) :
    (mapGet s.contexts uid = some c ∧ s2 = s) ∨
      (mapGet s.contexts uid = none ∧ c = s.nextCtxId ∧
        s2.contexts = (uid, c) :: s.contexts ∧ s2.nextCtxId = c + 1 ∧
        s2.activePages = s.activePages ∧ s2.result = s.result ∧
        s2.browser = some ()) := by
  unfold getOrCreateContext at h
  split at h
  next ctx hget =>
    left
    simp only [Except.ok.injEq, Prod.mk.injEq] at h
    exact ⟨h.1 ▸ hget, h.2.symm⟩
  next hget =>
    right
    split at h
    next e herr => simp at h
    next s1 hinit =>
      obtain ⟨hc, hn, ha, hr⟩ := initializeBrowser_ok hinit
      have hb : s1.browser = some () := by
        unfold initializeBrowser at hinit
        split at hinit
        next u heq =>
          simp only [Except.ok.injEq] at hinit
          subst hinit
          rw [heq]
        next =>
          split at hinit
          · simp only [Except.ok.injEq] at hinit
            subst hinit
            rfl
          · simp at hinit
      split at h
      · simp only [Except.ok.injEq, Prod.mk.injEq] at h
        obtain ⟨hcEq, hsEq⟩ := h
        subst hsEq
        refine ⟨hget, by rw [← hcEq, hn], by rw [hc, ← hcEq, hn], ?_, ha, hr, hb⟩
        rw [← hcEq, hn]
      · simp at h

/-- A successful `getOrCreateContext` preserves the slot counter. -/
theorem getOrCreateContext_activePages {env : FetchEnv} {uid : String}
    {s : ServerState} {c : Nat} {s2 : ServerState}
    (h : getOrCreateContext env uid s = .ok (c, s2)) :
    s2.activePages = s.activePages := by
  rcases getOrCreateContext_ok h with ⟨_, rfl⟩ | ⟨_, _, _, _, ha, _, _⟩
  · rfl
  · exact ha

/-- A successful `getOrCreateContext` preserves the stored result. -/
theorem getOrCreateContext_result {env : FetchEnv} {uid : String}
    {s : ServerState} {c : Nat} {s2 : ServerState}
    (h : getOrCreateContext env uid s = .ok (c, s2)) :
    s2.result = s.result := by
  rcases getOrCreateContext_ok h with ⟨_, rfl⟩ | ⟨_, _, _, _, _, hr, _⟩
  · rfl
  · exact hr

/-! ### C2: the slot ceiling is an invariant -/

/-- C2: under the cooperative single-threaded scheduling model, for every
sequence of interleaved slot operations starting from the fresh server,
`activePages` never exceeds `maxConcurrentPages` (default 10):
`waitForPageSlot` increments the counter only when it is strictly below
the ceiling. -/
theorem slot_count_never_exceeds_ceiling (s : ServerState)
    (h : SlotReachable s) : s.activePages ≤ maxConcurrentPages := by
  induction h with
  | init => simp [initialState]
  | step _ hstep ih =>
    cases hstep with
    | acquire hlt => simpa [waitForPageSlot] using hlt
    | release => simpa [releasePageSlot] using le_trans (Nat.sub_le _ _) ih
    | other _ heq => rw [heq]; exact ih

/-- Witness for C2 at the initial state. -/
theorem slot_count_never_exceeds_ceiling_witness :
    initialState.activePages ≤ maxConcurrentPages :=
  slot_count_never_exceeds_ceiling initialState SlotReachable.init

/-! ### C1: slot pairing in `#openUrlInSearchWindow` -/

/-- An environment in which the browser fails to launch. -/
def envLaunchFail : FetchEnv :=
  { launchOk := false, newContextOk := true, newPageOk := true,
    gotoOk := true, contentOk := true, doc := ⟨[], []⟩ }

/-- C1 counterexample: on the path where obtaining the session/browser
fails (browser launch failure on a fresh server), the call propagates an
error but leaves `activePages` one higher than before: the slot acquired
before the `try` block is never released, so acquisition and release are
NOT paired on that path. -/
theorem openUrl_slot_leak_on_context_failure :
    (openUrlInSearchWindow envLaunchFail "u" "url" initialState).1
        = .error .resourceError ∧
      (openUrlInSearchWindow envLaunchFail "u" "url" initialState).2.activePages
        ≠ initialState.activePages :=
  ⟨rfl, by decide⟩

/-- C1 (amended): for every call to `#openUrlInSearchWindow` on which the
session/browser is obtained successfully (so the `try`/`finally` region
is entered), whether the call returns the document or propagates a
navigation error, the slot count after the call equals the slot count
before it; only the path where `getOrCreateContext` fails — which is
outside the `try` — leaks the acquired slot. -/
theorem openUrl_slot_net_zero_when_context_ok (env : FetchEnv)
    (uid url : String) (s : ServerState)
    (h : ∃ p, getOrCreateContext env uid (waitForPageSlot s) = .ok p) :
    (openUrlInSearchWindow env uid url s).2.activePages = s.activePages := by
  obtain ⟨⟨c, s2⟩, heq⟩ := h
  have hap : s2.activePages = s.activePages + 1 := by
    have := getOrCreateContext_activePages heq
    simpa [waitForPageSlot] using this
  unfold openUrlInSearchWindow
  simp only [heq]
  split
  · simp [releasePageSlot, hap]
  · split
    · simp [releasePageSlot, hap]
    · split <;> simp [releasePageSlot, hap]

/-- An environment in which every external effect succeeds and the
captured document is empty. -/
def envAllOk : FetchEnv :=
  { launchOk := true, newContextOk := true, newPageOk := true,
    gotoOk := true, contentOk := true, doc := ⟨[], []⟩ }

/-- Witness for the amended C1: a concrete successful call on the fresh
server, whose context acquisition succeeds, nets zero slots. -/
theorem openUrl_slot_net_zero_witness :
    (openUrlInSearchWindow envAllOk "u" "url" initialState).2.activePages
      = initialState.activePages :=
  openUrl_slot_net_zero_when_context_ok envAllOk "u" "url" initialState
    ⟨(0, { browser := some (), contexts := [("u", 0)], nextCtxId := 1,
           activePages := 1, result := none }), rfl⟩

/-- On a successful fetch the returned document is the captured one. -/
theorem openUrl_ok_doc {env : FetchEnv} {uid url : String} {s : ServerState}
    {d : Doc} {s1 : ServerState}
    (h : openUrlInSearchWindow env uid url s = (.ok d, s1)) : d = env.doc := by
  unfold openUrlInSearchWindow at h
  cases hg : getOrCreateContext env uid (waitForPageSlot s) with
  | error e => simp [hg] at h
  | ok p =>
    obtain ⟨c, s2⟩ := p
    simp only [hg] at h
    split at h
    · simp at h
    · split at h
      · simp at h
      · split at h
        · simp at h
        · simp only [Prod.mk.injEq, Except.ok.injEq] at h
          exact h.1.symm

/-- The fetch worker `#openUrlInSearchWindow` never touches the stored result. -/
theorem openUrl_result_preserved (env : FetchEnv) (uid url : String)
    (s : ServerState) :
    (openUrlInSearchWindow env uid url s).2.result = s.result := by
  unfold openUrlInSearchWindow
  cases hg : getOrCreateContext env uid (waitForPageSlot s) with
  | error e =>
    simp only [hg]
    simp [waitForPageSlot]
  | ok p =>
    obtain ⟨c, s2⟩ := p
    have hres : s2.result = s.result := by
      have := getOrCreateContext_result hg
      simpa [waitForPageSlot] using this
    simp only [hg]
    split
    · simp [releasePageSlot, hres]
    · split
      · simp [releasePageSlot, hres]
      · split <;> simp [releasePageSlot, hres]

/-! ### C3: truncation to `max_results` is a prefix -/

/-- The extraction pipeline's output on the captured document, for the
engine the options select. -/
def pipelineOutput (env : FetchEnv) (opts : SearchOptions) :
    List SearchResult :=
  match selectEngine opts.engine with
  | .baidu => parseBaiduSearchResults env.doc.baiduItems
  | .bing => parseBingSearchResults env.doc.bingItems

/-- C3: every successful `search` call stores and returns exactly the
first `max_results` elements of the extraction pipeline's output, in
order: the stored list is `take max_results` of the pipeline output,
hence of length ≤ `max_results` and a prefix of it, and `formatJSON`
returns exactly that truncated list. -/
theorem search_stores_truncated_pipeline (env : FetchEnv) (query : String)
    (opts : SearchOptions) (s : ServerState) (resp : SearchResponse)
    (s1 : ServerState) (h : search env query opts s = (.ok resp, s1)) :
    resp.results = (pipelineOutput env opts).take opts.max_results ∧
      resp.results.length ≤ opts.max_results ∧
      resp.results <+: pipelineOutput env opts ∧
      s1.result = some resp ∧
      formatJSON s1 = resp.results := by
  unfold search at h
  cases hO : openUrlInSearchWindow env opts.uid
      (requestUrl (selectEngine opts.engine) query) s with
  | mk r st =>
    simp only [hO] at h
    cases r with
    | error e => simp at h
    | ok d =>
      have hd : d = env.doc := openUrl_ok_doc hO
      simp only [Prod.mk.injEq, Except.ok.injEq] at h
      obtain ⟨hresp, hs1⟩ := h
      subst hd
      have hres : resp.results = (pipelineOutput env opts).take opts.max_results := by
        rw [← hresp]
        cases hsel : selectEngine opts.engine <;>
          simp [pipelineOutput, hsel]
      refine ⟨hres, ?_, ?_, ?_, ?_⟩
      · rw [hres]; exact List.length_take_le _ _
      · rw [hres]; exact List.take_prefix _ _
      · rw [← hs1, ← hresp]
      · rw [← hs1, ← hresp]; rfl

/-- Witness for C3: a concrete successful search on the fresh server with
an empty captured document. -/
theorem search_stores_truncated_pipeline_witness :
    ({ query := "q", results := [] } : SearchResponse).results =
        (pipelineOutput envAllOk {}).take (5 : Nat) ∧
      ({ query := "q", results := [] } : SearchResponse).results.length ≤ (5 : Nat) ∧
      ({ query := "q", results := [] } : SearchResponse).results <+:
        pipelineOutput envAllOk {} ∧
      ({ browser := some (), contexts := [("default", 0)], nextCtxId := 1,
         activePages := 0,
         result := some { query := "q", results := [] } } : ServerState).result
        = some { query := "q", results := [] } ∧
      formatJSON { browser := some (), contexts := [("default", 0)],
                   nextCtxId := 1, activePages := 0,
                   result := some { query := "q", results := [] } }
        = ({ query := "q", results := [] } : SearchResponse).results :=
  search_stores_truncated_pipeline envAllOk "q" {} initialState
    { query := "q", results := [] }
    { browser := some (), contexts := [("default", 0)], nextCtxId := 1,
      activePages := 0, result := some { query := "q", results := [] } }
    (by rfl)

/-! ### C10: a failed search leaves the stored result untouched -/

/-- C10: when a `search` call fails (any step up to and including the
fetch throws), the stored last response is unchanged, so `formatContent`
and `formatJSON` still reflect the most recent successful search. -/
theorem search_failure_preserves_result (env : FetchEnv) (query : String)
    (opts : SearchOptions) (s : ServerState) (e : SearchError)
    (s1 : ServerState) (h : search env query opts s = (.error e, s1)) :
    s1.result = s.result ∧ formatContent s1 = formatContent s ∧
      formatJSON s1 = formatJSON s := by
  unfold search at h
  cases hO : openUrlInSearchWindow env opts.uid
      (requestUrl (selectEngine opts.engine) query) s with
  | mk r st =>
    simp only [hO] at h
    cases r with
    | ok d => simp at h
    | error e2 =>
      simp only [Prod.mk.injEq, Except.error.injEq] at h
      obtain ⟨-, hs1⟩ := h
      have hst : st.result = s.result := by
        have := openUrl_result_preserved env opts.uid
          (requestUrl (selectEngine opts.engine) query) s
        rwa [hO] at this
      subst hs1
      exact ⟨hst, by simp only [formatContent, hst],
        by simp only [formatJSON, hst]⟩

/-- A server state that already holds a stored response. -/
def stateWithOldResult : ServerState :=
  { initialState with result := some { query := "old", results := [] } }

/-- Witness for C10: a concrete failing search (browser launch failure)
leaves a previously stored response visible. -/
theorem search_failure_preserves_result_witness :
    ({ browser := none, contexts := [], nextCtxId := 0, activePages := 1,
       result := some { query := "old", results := [] } } : ServerState).result
        = stateWithOldResult.result ∧
      formatContent { browser := none, contexts := [], nextCtxId := 0,
                      activePages := 1,
                      result := some { query := "old", results := [] } }
        = formatContent stateWithOldResult ∧
      formatJSON { browser := none, contexts := [], nextCtxId := 0,
                   activePages := 1,
                   result := some { query := "old", results := [] } }
        = formatJSON stateWithOldResult :=
  search_failure_preserves_result envLaunchFail "q" {} stateWithOldResult
    .resourceError
    { browser := none, contexts := [], nextCtxId := 0, activePages := 1,
      result := some { query := "old", results := [] } }
    rfl

/-! ### C8: formatting before any successful search -/

/-- C8: with no stored response (as before any successful search),
`formatContent` returns the empty string and `formatJSON` the empty
list; neither fails. -/
theorem format_before_search_empty (s : ServerState)
    (h : s.result = none) :
    formatContent s = "" ∧ formatJSON s = [] := by
  exact ⟨by simp [formatContent, h], by simp [formatJSON, h]⟩

/-- Witness for C8 at the freshly constructed server. -/
theorem format_before_search_empty_witness :
    formatContent initialState = "" ∧ formatJSON initialState = [] :=
  format_before_search_empty initialState rfl

/-! ### C6: unrecognized engine values fall back to Bing -/

/-- The function `search` depends on the options only through the uid, the result cap
and the selected engine. -/
theorem search_engine_eq (env : FetchEnv) (query : String)
    (s : ServerState) (o1 o2 : SearchOptions) (huid : o1.uid = o2.uid)
    (hmax : o1.max_results = o2.max_results)
    (heng : selectEngine o1.engine = selectEngine o2.engine) :
    search env query o1 s = search env query o2 s := by
  unfold search
  rw [huid, hmax, heng]

/-- C6: every engine option that is not a case-insensitive match of
"baidu" selects the Bing engine: the Bing URL template is used, and the
whole call behaves exactly as with `engine := "bing"` — no validation
error exists for the unrecognized value. -/
theorem unrecognized_engine_falls_back_to_bing (engine : String)
    (env : FetchEnv) (query uid : String) (m : Nat) (s : ServerState)
    (h : jsToLowerCase engine ≠ "baidu") :
    selectEngine engine = Engine.bing ∧
      requestUrl (selectEngine engine) query =
        "https://www.bing.com/search?q=" ++ encodeURIComponent query ∧
      search env query { uid := uid, max_results := m, engine := engine } s =
        search env query { uid := uid, max_results := m, engine := "bing" } s := by
  have hsel : selectEngine engine = .bing := by
    simp [selectEngine, h]
  refine ⟨hsel, by rw [hsel]; rfl, ?_⟩
  refine search_engine_eq env query s _ _ rfl rfl ?_
  show selectEngine engine = selectEngine "bing"
  rw [hsel]
  decide

/-- Witness for C6 with the unrecognized engine value "google". -/
theorem unrecognized_engine_falls_back_to_bing_witness :
    selectEngine "google" = Engine.bing ∧
      requestUrl (selectEngine "google") "q" =
        "https://www.bing.com/search?q=" ++ encodeURIComponent "q" ∧
      search envAllOk "q" { uid := "u", max_results := 5, engine := "google" }
          initialState =
        search envAllOk "q" { uid := "u", max_results := 5, engine := "bing" }
          initialState :=
  unrecognized_engine_falls_back_to_bing "google" envAllOk "q" "u" 5
    initialState (by decide)

/-! ### C7: `cleanup` is safe, idempotent and resets everything -/

/-- Closing contexts one by one never touches the id counter. -/
theorem foldl_closeContext_nextCtxId (l : List (String × Nat))
    (s : ServerState) :
    (l.foldl (fun st p => closeContext p.1 st) s).nextCtxId = s.nextCtxId := by
  induction l generalizing s with
  | nil => rfl
  | cons p rest ih =>
    rw [List.foldl_cons, ih]
    rfl

/-- Closing the browser never touches the id counter. -/
theorem closeBrowser_nextCtxId (s : ServerState) :
    (closeBrowser s).nextCtxId = s.nextCtxId := by
  unfold closeBrowser
  cases s.browser <;> rfl

/-- The state `cleanup` leaves behind, in closed form. -/
theorem cleanup_eq (s : ServerState) :
    cleanup s = { browser := none, contexts := [], nextCtxId := s.nextCtxId,
                  activePages := 0, result := none } := by
  unfold cleanup
  simp [closeBrowser_nextCtxId, foldl_closeContext_nextCtxId]

/-- C7: `cleanup` called on the never-initialized server is a no-op (and
makes no external call, so nothing can fail); called twice in succession
the second call changes nothing (idempotent); and after any call the
browser handle is `none`, the session registry is empty, the slot counter
is zero, and the stored response is discarded. -/
theorem cleanup_safe_idempotent_resets (s : ServerState) :
    cleanup initialState = initialState ∧
      cleanup (cleanup s) = cleanup s ∧
      (cleanup s).browser = none ∧ (cleanup s).contexts = [] ∧
      (cleanup s).activePages = 0 ∧ (cleanup s).result = none := by
  refine ⟨?_, ?_, ?_, ?_, ?_, ?_⟩ <;> simp [cleanup_eq, initialState]

/-! ### C9: `getOrCreateContext` is idempotent per uid -/

/-- Registry well-formedness: every registered id is below the allocation
counter, and both uids (the `Map` keys) and context ids are pairwise
distinct. Holds for the fresh server and is preserved by every
successful `getOrCreateContext`. -/
def ctxWF (s : ServerState) : Prop :=
  (∀ p ∈ s.contexts, p.2 < s.nextCtxId) ∧
    (s.contexts.map Prod.fst).Nodup ∧ (s.contexts.map Prod.snd).Nodup

/-- A `mapGet` hit is a membership. -/
theorem mapGet_mem {l : List (String × Nat)} {k : String} {v : Nat}
    (h : mapGet l k = some v) : (k, v) ∈ l := by
  induction l with
  | nil => simp [mapGet] at h
  | cons p rest ih =>
    obtain ⟨k2, v2⟩ := p
    simp only [mapGet] at h
    split at h
    · next heq =>
      simp only [Option.some.injEq] at h
      subst heq
      subst h
      exact List.mem_cons_self _ _
    · exact List.mem_cons_of_mem _ (ih h)

/-- A `mapGet` miss means the key is absent. -/
theorem mapGet_none {l : List (String × Nat)} {k : String}
    (h : mapGet l k = none) : k ∉ l.map Prod.fst := by
  induction l with
  | nil => simp
  | cons p rest ih =>
    obtain ⟨k2, v2⟩ := p
    simp only [mapGet] at h
    split at h
    · simp at h
    · next hne =>
      simp only [List.map_cons, List.mem_cons]
      rintro (rfl | hmem)
      · exact hne rfl
      · exact ih h hmem

/-- A successful `getOrCreateContext` answers later lookups of its uid
with the context it returned. -/
theorem getOrCreateContext_lookup {env : FetchEnv} {uid : String}
    {s : ServerState} {c : Nat} {s1 : ServerState}
    (h : getOrCreateContext env uid s = .ok (c, s1)) :
    mapGet s1.contexts uid = some c := by
  rcases getOrCreateContext_ok h with ⟨hsome, rfl⟩ | ⟨_, _, hctx, _⟩
  · exact hsome
  · rw [hctx]; simp [mapGet]

/-- A successful `getOrCreateContext` preserves registry
well-formedness. -/
theorem getOrCreateContext_WF {env : FetchEnv} {uid : String}
    {s : ServerState} {c : Nat} {s1 : ServerState}
    (h : getOrCreateContext env uid s = .ok (c, s1)) (hwf : ctxWF s) :
    ctxWF s1 := by
  rcases getOrCreateContext_ok h with ⟨_, rfl⟩ |
    ⟨hnone, hc, hctx, hnext, -, -, -⟩
  · exact hwf
  · obtain ⟨hbound, hkeys, hvals⟩ := hwf
    subst hc
    refine ⟨?_, ?_, ?_⟩
    · intro p hp
      rw [hctx] at hp
      rw [hnext]
      rcases List.mem_cons.mp hp with rfl | hp'
      · exact Nat.lt_succ_self _
      · exact Nat.lt_succ_of_lt (hbound p hp')
    · rw [hctx]
      simp only [List.map_cons]
      exact List.nodup_cons.mpr ⟨mapGet_none hnone, hkeys⟩
    · rw [hctx]
      simp only [List.map_cons]
      refine List.nodup_cons.mpr ⟨?_, hvals⟩
      intro hmem
      obtain ⟨p, hp, hpv⟩ := List.mem_map.mp hmem
      exact absurd (hpv ▸ hbound p hp) (lt_irrefl _)

/-- C9: per uid, `getOrCreateContext` is idempotent on a well-formed
registry: a second call with the same uid returns the very same context
and leaves the state unchanged; calls with different uids return
distinct contexts; and the registry keeps at most one context per uid. -/
theorem getOrCreateContext_idempotent (s : ServerState) (hwf : ctxWF s) :
    (∀ env env2 uid c s1, getOrCreateContext env uid s = .ok (c, s1) →
        getOrCreateContext env2 uid s1 = .ok (c, s1)) ∧
      (∀ env env2 u v c d s1 s2, u ≠ v →
        getOrCreateContext env u s = .ok (c, s1) →
        getOrCreateContext env2 v s1 = .ok (d, s2) → c ≠ d) ∧
      (∀ env uid c s1, getOrCreateContext env uid s = .ok (c, s1) →
        (s1.contexts.map Prod.fst).Nodup) := by
  refine ⟨?_, ?_, ?_⟩
  · intro env env2 uid c s1 h
    unfold getOrCreateContext
    rw [getOrCreateContext_lookup h]
  · intro env env2 u v c d s1 s2 huv h1 h2 hcd
    subst hcd
    have hwf1 : ctxWF s1 := getOrCreateContext_WF h1 hwf
    have hu : (u, c) ∈ s1.contexts := mapGet_mem (getOrCreateContext_lookup h1)
    rcases getOrCreateContext_ok h2 with ⟨hsome, -⟩ | ⟨-, hc2, -, -⟩
    · have hv : (v, c) ∈ s1.contexts := mapGet_mem hsome
      have := List.inj_on_of_nodup_map hwf1.2.2 hu hv rfl
      exact huv (congrArg Prod.fst this)
    · exact absurd (hc2 ▸ hwf1.1 _ hu) (lt_irrefl _)
  · intro env uid c s1 h
    exact (getOrCreateContext_WF h hwf).2.1

/-- The registry state after creating a context for uid "a" on the fresh
server. -/
def stA : ServerState :=
  { browser := some (), contexts := [("a", 0)], nextCtxId := 1,
    activePages := 0, result := none }

/-- Witness for C9: on the fresh server, after a first call created
context 0 for "a", a second call returns the same context unchanged. -/
theorem getOrCreateContext_idempotent_witness :
    getOrCreateContext envAllOk "a" stA = .ok (0, stA) :=
  (getOrCreateContext_idempotent initialState
      (by simp [ctxWF, initialState])).1
    envAllOk envAllOk "a" 0 stA (by rfl)

/-! ### C4: PrimaryEngine content-tier precedence -/

/-- Emptiness test on the `false` side. -/
theorem isEmpty_false_iff (s : String) : s.isEmpty = false ↔ s ≠ "" := by
  rw [Bool.eq_false_iff]
  exact not_congr (String.isEmpty_iff s)

/-- A Bing container whose tier (a) node is present but holds no text,
while the tier (b) caption holds the text "hello". -/
def bingItemCE : BingItem :=
  { titleText := "t", href := some "http://x",
    lineclamp := some { pieces := [] },
    caption := some { pieces := [ParaPiece.text "hello"] },
    dListSpans := [] }

/-- C4 counterexample: the three-tier fallback is NOT "attempted in order
until one yields non-empty text": on a container whose clamped paragraph
is present but yields empty text while the caption paragraph would yield
"hello", the extracted content is "" — tier (b) is never attempted once
the tier (a) node exists. -/
theorem bing_tier_text_fallback_counterexample :
    bingItemCE.lineclamp = some { pieces := [] } ∧
      bingItemCE.caption = some { pieces := [ParaPiece.text "hello"] } ∧
      normText (Para.textSansDate { pieces := [ParaPiece.text "hello"] })
        = "hello" ∧
      bingContent bingItemCE = "" ∧
      parseBingSearchResults [bingItemCE] =
        [{ url := "http://x", title := "t", content := "" }] :=
  ⟨rfl, rfl, rfl, rfl, rfl⟩

/-- C4 (amended): PrimaryEngine extraction chooses content by node
presence, in order: when the clamped paragraph node exists, its
timestamp-stripped text is used — even when that text is empty, so
tiers (b)/(c) are not attempted; otherwise the caption paragraph when it
exists, with the same stripping; otherwise the item-span list, each item
preferring its non-empty title attribute over its visible text, joined
with single spaces. -/
theorem bing_content_presence_precedence (it : BingItem) :
    (∀ p, it.lineclamp = some p → bingContent it = normText p.textSansDate) ∧
      (it.lineclamp = none → ∀ p, it.caption = some p →
        bingContent it = normText p.textSansDate) ∧
      (it.lineclamp = none → it.caption = none →
        bingContent it = dListContent it.dListSpans) ∧
      (∀ sp : SpanItem, ∀ t, sp.titleAttr = some t → t ≠ "" →
        sp.chosenText = t) := by
  refine ⟨?_, ?_, ?_, ?_⟩
  · intro p hp
    unfold bingContent
    rw [hp]
  · intro h1 p hp
    unfold bingContent
    rw [h1, hp]
  · intro h1 h2
    unfold bingContent
    rw [h1, h2]
  · intro sp t h1 h2
    unfold SpanItem.chosenText
    rw [h1]
    simp [(isEmpty_false_iff t).mpr h2]

/-- Witness for the amended C4: on the counterexample container, the
chosen content is exactly the timestamp-stripped text of the present
tier (a) node. -/
theorem bing_content_presence_precedence_witness :
    bingContent bingItemCE = normText (Para.textSansDate { pieces := [] }) :=
  (bing_content_presence_precedence bingItemCE).1 { pieces := [] } rfl

/-! ### C5: per-engine candidate emission rules -/

/-- C5: a Baidu container is emitted exactly when its title, url and
content are all non-empty (absent or empty content drops the candidate
even with title and url present); a Bing container is emitted exactly
when its title and url are non-empty, and the emitted candidate carries
the pipeline's content, which may be the empty string. -/
theorem candidate_emission_rules (bd : BaiduItem) (bg : BingItem) :
    ((baiduCandidate bd).isSome = true ↔
        baiduTitle bd.titleAnchor ≠ "" ∧ optTruthy bd.href = true ∧
          baiduContent bd ≠ "") ∧
      ((bingCandidate bg).isSome = true ↔
        jsTrim bg.titleText ≠ "" ∧ optTruthy bg.href = true) ∧
      (∀ r, bingCandidate bg = some r → r.content = bingContent bg) := by
  refine ⟨?_, ?_, ?_⟩
  · unfold baiduCandidate optTruthy
    cases bd.href with
    | none => simp
    | some u =>
      simp [apply_ite Option.isSome, Bool.and_eq_true, Bool.not_eq_true',
        isEmpty_false_iff, and_assoc]
  · unfold bingCandidate optTruthy
    cases bg.href with
    | none => simp
    | some u =>
      simp [apply_ite Option.isSome, Bool.and_eq_true, Bool.not_eq_true',
        isEmpty_false_iff]
  · intro r hr
    unfold bingCandidate at hr
    cases hh : bg.href with
    | none => rw [hh] at hr; simp at hr
    | some u =>
      rw [hh] at hr
      split at hr
      next x t2 heq2 =>
        cases heq2
        simp only [] at hr
        split at hr
        · simp only [Option.some.injEq] at hr
          rw [← hr]
        · simp at hr
      next x heq2 => cases heq2

/-- A Baidu container with title and url present but no content span,
and a Bing container with title and url but no content tier at all. -/
def baiduItemNoContent : BaiduItem :=
  { titleAnchor := some [TitlePiece.text "t"], href := some "u",
    contentSpan := none }

/-- Bing counterpart of `baiduItemNoContent`: no content tier matches. -/
def bingItemNoContent : BingItem :=
  { titleText := "t", href := some "u", lineclamp := none,
    caption := none, dListSpans := [] }

/-- Witness for C5: the Bing candidate emitted for a container with no
content tier carries the empty content the pipeline computed. -/
theorem candidate_emission_rules_witness :
    ({ url := "u", title := "t", content := "" } : SearchResult).content
      = bingContent bingItemNoContent :=
  (candidate_emission_rules baiduItemNoContent bingItemNoContent).2.2
    { url := "u", title := "t", content := "" } (by rfl)

end LocalSearch
